import Mathlib

/-!
Shallow embedding of the lost-and-found Flask application (`app.py`).

The relational store is modelled as two lists of records (`users`, `items`),
mirroring the two SQLAlchemy tables declared in `app.py`.  Each route handler
becomes a pure function from the store (plus its request inputs) to a new
store together with the outcome of the request.  External collaborators
(werkzeug password hashing, itsdangerous timed serializer, werkzeug
`secure_filename`) are modelled as deterministic pure functions whose
interface properties match those libraries.
-/

namespace LostFound

/-- A row of the `user` table (`app.py`, class `User`). -/
structure User where
  id : Nat
  name : String
  email : String
  password : String
deriving Repr, DecidableEq

/-- A row of the `item` table (`app.py`, class `Item`).  `type` is the free
string the form posts ("Lost" or "Found"); `date_reported` is the creation
timestamp (seconds, like `datetime.utcnow`); `image` is the optional stored
file name. -/
structure Item where
  id : Nat
  title : String
  type : String
  location : String
  description : String
  image : Option String
  date_reported : Nat
  is_resolved : Bool
  user_id : Nat
deriving Repr, DecidableEq

/-- The relational store: both tables. -/
structure Store where
  users : List User
  items : List Item
deriving Repr, DecidableEq

/-- The error taxonomy of the specification (section 7). -/
inductive Err where
  | DuplicateEmail
  | InvalidCredentials
  | TokenExpired
  | TokenInvalid
  | PasswordMismatch
  | NotFound
  | Forbidden
  | UserNotFound
deriving Repr, DecidableEq

/-- Modelled from the spec: `werkzeug.security.generate_password_hash` with
method `pbkdf2:sha256` — an external collaborator.  Modelled as a
deterministic injective one-way tagging of the plaintext. -/
def generate_password_hash (password : String) : String :=
  ("pbkdf2:sha256$") ++ password

/-- Modelled from the spec: `werkzeug.security.check_password_hash` — succeeds
exactly when the candidate plaintext hashes to the stored hash. -/
def check_password_hash (hash password : String) : Bool :=
  hash == generate_password_hash password

/-- `User.query.filter_by(email=email).first()` (`app.py`, register / login /
forgot_password). -/
def firstUserByEmail (s : Store) (email : String) : Option User :=
  s.users.find? (fun u => u.email == email)

/-- `User.query.get(user_id)` (`app.py`, reset_password / load_user). -/
def getUserById (s : Store) (user_id : Nat) : Option User :=
  s.users.find? (fun u => u.id == user_id)

/-- `Item.query.get(item_id)` — the lookup underlying `get_or_404`. -/
def getItemById (s : Store) (item_id : Nat) : Option Item :=
  s.items.find? (fun it => it.id == item_id)

/-- The autoincrement primary key the database assigns to the next `user`
row: one more than the largest id in the table. -/
def nextUserId (s : Store) : Nat :=
  (s.users.foldr (fun u m => max u.id m) 0) + 1

/-- The autoincrement primary key the database assigns to the next `item`
row. -/
def nextItemId (s : Store) : Nat :=
  (s.items.foldr (fun it m => max it.id m) 0) + 1

/-- `register` (`app.py` lines 64–84), POST branch: reject a duplicate email,
otherwise insert a new user with the hashed password.  The returned store is
the database state when the handler returns. -/
def register (s : Store) (name email password : String) : Store × Except Err Unit :=
  match firstUserByEmail s email with
  | some _ => (s, Except.error Err.DuplicateEmail)
  | none =>
    let new_user : User :=
      { id := nextUserId s
        name := name
        email := email
        password := generate_password_hash password }
    ({ s with users := s.users ++ [new_user] }, Except.ok ())

/-- `login` (`app.py` lines 86–97), POST branch: look the user up by email and
verify the hash; success yields the session's user id. -/
def authenticate (s : Store) (email password : String) : Except Err Nat :=
  match firstUserByEmail s email with
  | some user =>
    if check_password_hash user.password password then Except.ok user.id
    else Except.error Err.InvalidCredentials
  | none => Except.error Err.InvalidCredentials

/-- Modelled from the spec: a token produced by the external
`itsdangerous.URLSafeTimedSerializer` — a signed payload (the user id) with
the salt it was signed under and its issuance timestamp. -/
structure ResetToken where
  user_id : Nat
  salt : String
  issued_at : Nat
deriving Repr, DecidableEq

/-- Modelled from the spec: `serializer.dumps(user.id, salt=...)` at the
current time. -/
def dumps (user_id : Nat) (salt : String) (now : Nat) : ResetToken :=
  { user_id := user_id, salt := salt, issued_at := now }

/-- Modelled from the spec: `serializer.loads(token, salt=..., max_age=...)`.
A wrong salt is a bad signature (`TokenInvalid`); an age beyond `max_age` is
`TokenExpired`; otherwise the signed user id is recovered. -/
def loads (tok : ResetToken) (salt : String) (max_age now : Nat) : Except Err Nat :=
  if tok.salt ≠ salt then Except.error Err.TokenInvalid
  else if now - tok.issued_at > max_age then Except.error Err.TokenExpired
  else Except.ok tok.user_id

/-- `forgot_password` (`app.py` lines 160–173), POST branch: if a user with
the email exists, issue a token signed with salt "password-reset" at the
current time; otherwise report that the email was not found.  The store is
never changed. -/
def forgot_password (s : Store) (email : String) (now : Nat) : Except Err ResetToken :=
  match firstUserByEmail s email with
  | some user => Except.ok (dumps user.id ("password-reset") now)
  | none => Except.error Err.UserNotFound

/-- Replace the stored password hash of the user with the given id
(`user.password = ...; db.session.commit()`). -/
def setPassword (s : Store) (user_id : Nat) (hash : String) : Store :=
  { s with
    users := s.users.map (fun u =>
      if u.id == user_id then { u with password := hash } else u) }

/-- `reset_password` (`app.py` lines 175–199), POST branch: verify the token
(salt "password-reset", 1 hour validity), look up its user, require the two
password fields to agree, then commit the new hash.  The returned store is
the database state when the handler returns: only the success branch
commits. -/
def reset_password (s : Store) (tok : ResetToken) (now : Nat)
    (password confirm_password : String) : Store × Except Err Unit :=
  match loads tok ("password-reset") 3600 now with
  | Except.error e => (s, Except.error e)
  | Except.ok user_id =>
    match getUserById s user_id with
    | none => (s, Except.error Err.UserNotFound)
    | some user =>
      if password ≠ confirm_password then (s, Except.error Err.PasswordMismatch)
      else (setPassword s user.id (generate_password_hash password), Except.ok ())

/-- Modelled from the spec: `werkzeug.utils.secure_filename` — an external
collaborator that sanitizes an uploaded file name.  Modelled as keeping only
ASCII-safe filename characters. -/
def secure_filename (filename : String) : String :=
  String.mk (filename.data.filter
    (fun c => c.isAlphanum || c == '.' || c == '-' || c == '_'))

/-- `add_item` (`app.py` lines 124–155), POST branch.  `image_file` is
`request.files.get("image")`, modelled by its (possibly empty) filename when
a file part is present.  A file is stored and its sanitized name recorded
only when a file part with a non-empty filename was uploaded; the new row
gets `date_reported = now` and `is_resolved = False` (the column defaults). -/
def add_item (s : Store) (uid : Nat) (title type_ location description : String)
    (image_file : Option String) (now : Nat) : Store :=
  let image_filename : Option String :=
    match image_file with
    | some fn => if fn ≠ ("") then some (secure_filename fn) else none
    | none => none
  let new_item : Item :=
    { id := nextItemId s
      title := title
      type := type_
      location := location
      description := description
      image := image_filename
      date_reported := now
      is_resolved := false
      user_id := uid }
  { s with items := s.items ++ [new_item] }

/-- The stats dictionary computed by `dashboard` (`app.py` lines 111–117). -/
structure Stats where
  total : Nat
  lost : Nat
  found : Nat
  resolved : Nat
  mine : Nat
deriving Repr, DecidableEq

/-- `dashboard`'s stats (`app.py` lines 111–117): each entry is an
`Item.query.filter_by(...).count()` over the whole item table, `mine`
filtered by the requesting user's id. -/
def computeStats (s : Store) (uid : Nat) : Stats :=
  { total := s.items.length
    lost := (s.items.filter (fun it => it.type == ("Lost"))).length
    found := (s.items.filter (fun it => it.type == ("Found"))).length
    resolved := (s.items.filter (fun it => it.is_resolved == true)).length
    mine := (s.items.filter (fun it => it.user_id == uid)).length }

/-- Outcome of the ownership-gated toggle (`update_status` lines 218–229)
before any response rendering: the item is missing, the requester is not the
owner, or the flag was flipped (carrying the new value the handler reports). -/
inductive ToggleOutcome where
  | notFound
  | forbidden
  | toggled (is_resolved : Bool)
deriving Repr, DecidableEq

/-- The store effect of the toggle: flip `is_resolved` of the row with this
id (`item.is_resolved = not item.is_resolved; db.session.commit()`). -/
def commitToggle (s : Store) (item_id : Nat) : Store :=
  { s with
    items := s.items.map (fun it =>
      if it.id == item_id then { it with is_resolved := !it.is_resolved } else it) }

/-- `update_status` (`app.py` lines 215–229), stripped of response rendering:
404 lookup, ownership check, then toggle-and-commit.  The returned store is
the database state when the handler goes on to render its response. -/
def update_status_core (s : Store) (requesterId item_id : Nat) :
    Store × ToggleOutcome :=
  match getItemById s item_id with
  | none => (s, ToggleOutcome.notFound)
  | some item =>
    if item.user_id ≠ requesterId then (s, ToggleOutcome.forbidden)
    else (commitToggle s item_id, ToggleOutcome.toggled (!item.is_resolved))

/-- A Python exception escaping a handler (the request then fails with HTTP
500). -/
inductive PyExn where
  | nameError (name : String)
deriving Repr, DecidableEq

/-- JSON bodies `update_status` tries to build: `\x7b"is_resolved": b\x7d`
and `\x7b"error": "Not allowed"\x7d`. -/
inductive JsonBody where
  | isResolvedBody (b : Bool)
  | errorBody (msg : String)
deriving Repr, DecidableEq

/-- An HTTP response produced by a handler. -/
inductive Response where
  | redirectWithFlash (message category target : String)
  | redirect (target : String)
  | abort404
  | page (template : String)
  | json (body : JsonBody) (status : Nat)
deriving Repr, DecidableEq

/-- Every module-level name bound in `app.py`: the names imported on lines
1–8 followed by the names defined by the module body.  Python resolves a
global reference inside a handler against exactly this set. -/
def appGlobalNames : List String :=
  ["Flask", "render_template", "request", "redirect", "url_for", "flash",
   "SQLAlchemy", "LoginManager", "UserMixin", "login_user", "login_required",
   "logout_user", "current_user", "generate_password_hash",
   "check_password_hash", "URLSafeTimedSerializer", "SignatureExpired",
   "BadSignature", "datetime", "os", "secure_filename", "app", "db",
   "login_manager", "serializer", "User", "Item", "load_user", "home",
   "register", "login", "logout", "dashboard", "add_item", "forgot_password",
   "reset_password", "item_detail", "update_status", "delete_item"]

/-- A call to the global `jsonify(...)`: Python first resolves the name
`jsonify` among the module's globals (and raises `NameError` if it is not
bound there), then builds the JSON response. -/
def callJsonify (body : JsonBody) (status : Nat) : Except PyExn Response :=
  if appGlobalNames.contains ("jsonify") then Except.ok (Response.json body status)
  else Except.error (PyExn.nameError ("jsonify"))

/-- `update_status` (`app.py` lines 215–237), the full handler including
response rendering.  `ajax` is whether the request carried the header
`X-Requested-With: XMLHttpRequest`.  The store component is the database
state when the handler finishes (the toggle is committed on line 229, before
any AJAX response is rendered). -/
def update_status (s : Store) (requesterId item_id : Nat) (ajax : Bool) :
    Store × Except PyExn Response :=
  match update_status_core s requesterId item_id with
  | (s', ToggleOutcome.notFound) => (s', Except.ok Response.abort404)
  | (s', ToggleOutcome.forbidden) =>
    if ajax then (s', callJsonify (JsonBody.errorBody ("Not allowed")) 403)
    else (s', Except.ok (Response.redirectWithFlash
      ("You are not allowed to update this item.") ("danger") ("dashboard")))
  | (s', ToggleOutcome.toggled b) =>
    if ajax then (s', callJsonify (JsonBody.isResolvedBody b) 200)
    else (s', Except.ok (Response.redirectWithFlash
      ("Item status updated ✅") ("success") ("dashboard")))

/-- `delete_item` (`app.py` lines 243–255): 404 lookup, ownership check,
then delete-and-commit. -/
def delete_item (s : Store) (requesterId item_id : Nat) : Store × Response :=
  match getItemById s item_id with
  | none => (s, Response.abort404)
  | some item =>
    if item.user_id ≠ requesterId then
      (s, Response.redirectWithFlash
        ("You are not allowed to delete this item.") ("danger") ("dashboard"))
    else
      ({ s with items := s.items.filter (fun it => !(it.id == item_id)) },
       Response.redirectWithFlash
         ("Item deleted successfully 🗑") ("success") ("dashboard"))

/-- `item_detail` (`app.py` lines 206–210): `get_or_404` then render. -/
def item_detail (s : Store) (item_id : Nat) : Response :=
  match getItemById s item_id with
  | none => Response.abort404
  | some _ => Response.page ("item_detail.html")

/-- One store-mutating request, with all its inputs. -/
inductive Op where
  | registerOp (name email password : String)
  | addItemOp (uid : Nat) (title type_ location description : String)
      (image_file : Option String) (now : Nat)
  | toggleOp (requesterId item_id : Nat) (ajax : Bool)
  | deleteOp (requesterId item_id : Nat)
  | resetOp (tok : ResetToken) (now : Nat) (password confirm_password : String)
deriving Repr, DecidableEq

/-- The database state after handling one request. -/
def stepOp (s : Store) : Op → Store
  | Op.registerOp n e p => (register s n e p).1
  | Op.addItemOp uid t ty l d im now => add_item s uid t ty l d im now
  | Op.toggleOp rid iid ajax => (update_status s rid iid ajax).1
  | Op.deleteOp rid iid => (delete_item s rid iid).1
  | Op.resetOp tok now p c => (reset_password s tok now p c).1

/-- The `unique=True` constraint on `user.email`: no two rows share an
email. -/
def emailsUnique (s : Store) : Prop :=
  s.users.Pairwise (fun a b => a.email ≠ b.email)

/-- The primary-key constraint on `item.id`: no two rows share an id. -/
def itemIdsUnique (s : Store) : Prop :=
  s.items.Pairwise (fun a b => a.id ≠ b.id)

/-- Number of users carrying a given email. -/
def emailCount (s : Store) (email : String) : Nat :=
  s.users.countP (fun u => u.email == email)

/-! ### Generic list lemmas -/

theorem find?_append_some {α : Type} {p : α → Bool} {l₁ l₂ : List α} {a : α}
    (h : l₁.find? p = some a) : (l₁ ++ l₂).find? p = some a := by
  induction l₁ with
  | nil => simp [List.find?] at h
  | cons b l ih =>
    cases hb : p b with
    | true =>
      rw [List.find?_cons_of_pos _ hb] at h
      rw [List.cons_append, List.find?_cons_of_pos _ hb]
      exact h
    | false =>
      rw [List.find?_cons_of_neg _ (by simp [hb])] at h
      rw [List.cons_append, List.find?_cons_of_neg _ (by simp [hb])]
      exact ih h

theorem find?_append_none {α : Type} {p : α → Bool} {l₁ l₂ : List α}
    (h : l₁.find? p = none) : (l₁ ++ l₂).find? p = l₂.find? p := by
  induction l₁ with
  | nil => simp
  | cons b l ih =>
    cases hb : p b with
    | true =>
      rw [List.find?_cons_of_pos _ hb] at h
      exact absurd h (by simp)
    | false =>
      rw [List.find?_cons_of_neg _ (by simp [hb])] at h
      rw [List.cons_append, List.find?_cons_of_neg _ (by simp [hb])]
      exact ih h

theorem find?_map_comm {α : Type} (f : α → α) (p : α → Bool)
    (hp : ∀ a, p (f a) = p a) (l : List α) :
    (l.map f).find? p = (l.find? p).map f := by
  induction l with
  | nil => simp
  | cons b l ih =>
    rw [List.map_cons]
    cases hb : p b with
    | true =>
      rw [List.find?_cons_of_pos _ (by rw [hp b]; exact hb),
        List.find?_cons_of_pos _ hb]
      simp
    | false =>
      rw [List.find?_cons_of_neg _ (by simp [hp b, hb]),
        List.find?_cons_of_neg _ (by simp [hb])]
      exact ih

theorem find?_filter_first {α : Type} {p q : α → Bool} {l : List α} {a : α}
    (h : l.find? p = some a) (hq : q a = true) :
    (l.filter q).find? p = some a := by
  induction l with
  | nil => simp [List.find?] at h
  | cons b l ih =>
    cases hb : p b with
    | true =>
      rw [List.find?_cons_of_pos _ hb] at h
      have hba : b = a := by injection h
      subst hba
      rw [List.filter_cons_of_pos hq]
      exact List.find?_cons_of_pos _ hb
    | false =>
      rw [List.find?_cons_of_neg _ (by simp [hb])] at h
      cases hqb : q b with
      | true =>
        rw [List.filter_cons_of_pos hqb, List.find?_cons_of_neg _ (by simp [hb])]
        exact ih h
      | false =>
        rw [List.filter_cons_of_neg (by simp [hqb])]
        exact ih h

theorem find?_filter_neg {α : Type} (p : α → Bool) (l : List α) :
    (l.filter (fun a => !(p a))).find? p = none := by
  rw [List.find?_eq_none]
  intro x hx
  rcases List.mem_filter.mp hx with ⟨_, hq⟩
  simp at hq
  simp [hq]

theorem countP_map_congr {α : Type} (f : α → α) (p : α → Bool)
    (hp : ∀ a, p (f a) = p a) (l : List α) :
    (l.map f).countP p = l.countP p := by
  induction l with
  | nil => simp
  | cons b l ih => simp [List.countP_cons, hp b, ih]

theorem countP_le_one_of_pairwise_key {α β : Type} [BEq β] [LawfulBEq β]
    (key : α → β) {l : List α} (h : l.Pairwise (fun a b => key a ≠ key b))
    (e : β) : l.countP (fun a => key a == e) ≤ 1 := by
  induction l with
  | nil => simp
  | cons b l ih =>
    rcases List.pairwise_cons.mp h with ⟨hb, hl⟩
    rw [List.countP_cons]
    cases hbe : (key b == e) with
    | false => simpa using ih hl
    | true =>
      have hkey : key b = e := by simpa using hbe
      have hzero : l.countP (fun a => key a == e) = 0 := by
        rw [List.countP_eq_zero]
        intro a ha
        have h1 : key b ≠ key a := hb a ha
        rw [hkey] at h1
        simpa using Ne.symm h1
      simp [hzero]

/-! ### Domain lemmas -/

theorem item_id_le_foldr_max {l : List Item} {it : Item} (h : it ∈ l) :
    it.id ≤ l.foldr (fun x m => max x.id m) 0 := by
  induction l with
  | nil => cases h
  | cons b l ih =>
    rcases List.mem_cons.mp h with hb | hl
    · subst hb; exact Nat.le_max_left _ _
    · exact Nat.le_trans (ih hl) (Nat.le_max_right _ _)

theorem item_id_lt_nextItemId {s : Store} {it : Item} (h : it ∈ s.items) :
    it.id < nextItemId s :=
  Nat.lt_succ_of_le (item_id_le_foldr_max h)

/-- The fresh id is not yet in the table. -/
theorem getItemById_nextItemId (s : Store) : getItemById s (nextItemId s) = none := by
  rw [getItemById, List.find?_eq_none]
  intro it hit
  have := item_id_lt_nextItemId hit
  simp [Nat.ne_of_lt this]

/-- The row `add_item` inserts, with the database-assigned id. -/
def newItemRow (s : Store) (uid : Nat) (title type_ location description : String)
    (image_file : Option String) (now : Nat) : Item :=
  { id := nextItemId s
    title := title
    type := type_
    location := location
    description := description
    image := match image_file with
             | some fn => if fn ≠ ("") then some (secure_filename fn) else none
             | none => none
    date_reported := now
    is_resolved := false
    user_id := uid }

theorem add_item_items (s : Store) (uid : Nat) (t ty l d : String)
    (im : Option String) (now : Nat) :
    (add_item s uid t ty l d im now).items
      = s.items ++ [newItemRow s uid t ty l d im now] := rfl

/-- Looking up the freshly inserted row finds it. -/
theorem getItemById_add_item_new (s : Store) (uid : Nat) (t ty l d : String)
    (im : Option String) (now : Nat) :
    getItemById (add_item s uid t ty l d im now) (nextItemId s)
      = some (newItemRow s uid t ty l d im now) := by
  rw [getItemById, add_item_items]
  rw [find?_append_none]
  · simp [List.find?, newItemRow]
  · have := getItemById_nextItemId s
    rwa [getItemById] at this

/-- Rows present before `add_item` are still found unchanged after it. -/
theorem getItemById_add_item_old {s : Store} {i : Nat} {it : Item}
    (h : getItemById s i = some it) (uid : Nat) (t ty l d : String)
    (im : Option String) (now : Nat) :
    getItemById (add_item s uid t ty l d im now) i = some it := by
  rw [getItemById, add_item_items]
  exact find?_append_some h

/-- The per-row function `commitToggle` maps over the table. -/
def toggleRow (item_id : Nat) (it : Item) : Item :=
  if it.id == item_id then { it with is_resolved := !it.is_resolved } else it

theorem toggleRow_id (item_id : Nat) (it : Item) :
    (toggleRow item_id it).id = it.id := by
  rw [toggleRow]; split <;> rfl

theorem commitToggle_items (s : Store) (item_id : Nat) :
    (commitToggle s item_id).items = s.items.map (toggleRow item_id) := rfl

theorem commitToggle_users (s : Store) (item_id : Nat) :
    (commitToggle s item_id).users = s.users := rfl

theorem getItemById_id {s : Store} {i : Nat} {it : Item}
    (h : getItemById s i = some it) : it.id = i := by
  rw [getItemById] at h
  have := List.find?_some h
  simpa using this

theorem getItemById_mem {s : Store} {i : Nat} {it : Item}
    (h : getItemById s i = some it) : it ∈ s.items := by
  rw [getItemById] at h
  exact List.mem_of_find?_eq_some h

theorem getItemById_commitToggle (s : Store) (item_id i : Nat) :
    getItemById (commitToggle s item_id) i
      = (getItemById s i).map (toggleRow item_id) := by
  rw [getItemById, getItemById, commitToggle_items]
  exact find?_map_comm (toggleRow item_id) (fun it => it.id == i)
    (fun it => by simp [toggleRow_id]) s.items

/-- Toggling the row it was asked about. -/
theorem getItemById_commitToggle_self {s : Store} {item_id : Nat} {it : Item}
    (h : getItemById s item_id = some it) :
    getItemById (commitToggle s item_id) item_id
      = some { it with is_resolved := !it.is_resolved } := by
  rw [getItemById_commitToggle, h]
  simp [toggleRow, getItemById_id h]

/-- Toggling one row leaves every other id's lookup unchanged. -/
theorem getItemById_commitToggle_other {s : Store} {item_id j : Nat}
    (hne : j ≠ item_id) :
    getItemById (commitToggle s item_id) j = getItemById s j := by
  rw [getItemById_commitToggle]
  cases h : getItemById s j with
  | none => rfl
  | some it =>
    have hid : it.id = j := getItemById_id h
    have hfalse : (it.id == item_id) = false := by
      rw [hid]; simpa using hne
    simp [toggleRow, hfalse]

theorem update_status_core_eq_forbidden {s : Store} {item_id requesterId : Nat}
    {item : Item} (hfind : getItemById s item_id = some item)
    (hno : item.user_id ≠ requesterId) :
    update_status_core s requesterId item_id = (s, ToggleOutcome.forbidden) := by
  rw [update_status_core, hfind]
  simp [hno]

theorem update_status_core_eq_toggled {s : Store} {item_id : Nat}
    {item : Item} (hfind : getItemById s item_id = some item) :
    update_status_core s item.user_id item_id
      = (commitToggle s item_id, ToggleOutcome.toggled (!item.is_resolved)) := by
  rw [update_status_core, hfind]
  simp

/-- `delete_item` removes the row: the deleted id no longer resolves. -/
theorem getItemById_delete_self {s : Store} {item_id : Nat} {item : Item}
    (hfind : getItemById s item_id = some item) :
    getItemById (delete_item s item.user_id item_id).1 item_id = none := by
  rw [delete_item, hfind]
  simp only [ne_eq, not_true_eq_false, if_false, ite_false]
  rw [getItemById]
  exact find?_filter_neg (fun it => it.id == item_id) s.items

/-- Deleting one row leaves every other id's lookup unchanged. -/
theorem getItemById_filter_other {s : Store} {item_id j : Nat} {it : Item}
    (hne : j ≠ item_id) (h : getItemById s j = some it) :
    (s.items.filter (fun x => !(x.id == item_id))).find? (fun x => x.id == j)
      = some it := by
  apply find?_filter_first (by rwa [getItemById] at h)
  have hj : it.id = j := getItemById_id h
  rw [hj]
  simpa using hne

/-- The password-hash model is injective. -/
theorem generate_password_hash_injective {a b : String}
    (h : generate_password_hash a = generate_password_hash b) : a = b := by
  rw [generate_password_hash, generate_password_hash] at h
  have hd := congrArg String.data h
  rw [String.data_append, String.data_append] at hd
  have hda := List.append_cancel_left hd
  cases a; cases b
  exact congrArg String.mk hda

theorem check_password_hash_self (password : String) :
    check_password_hash (generate_password_hash password) password = true := by
  simp [check_password_hash]

theorem check_password_hash_ne {newPwd oldPwd : String} (h : oldPwd ≠ newPwd) :
    check_password_hash (generate_password_hash newPwd) oldPwd = false := by
  rw [check_password_hash]
  rw [beq_eq_false_iff_ne]
  intro he
  exact h (generate_password_hash_injective he).symm

/-- The per-row function `setPassword` maps over the user table. -/
def setPasswordRow (user_id : Nat) (hash : String) (u : User) : User :=
  if u.id == user_id then { u with password := hash } else u

theorem setPassword_users (s : Store) (user_id : Nat) (hash : String) :
    (setPassword s user_id hash).users
      = s.users.map (setPasswordRow user_id hash) := rfl

theorem setPasswordRow_email (user_id : Nat) (hash : String) (u : User) :
    (setPasswordRow user_id hash u).email = u.email := by
  rw [setPasswordRow]; split <;> rfl

theorem firstUserByEmail_setPassword (s : Store) (user_id : Nat) (hash email : String) :
    firstUserByEmail (setPassword s user_id hash) email
      = (firstUserByEmail s email).map (setPasswordRow user_id hash) := by
  rw [firstUserByEmail, firstUserByEmail, setPassword_users]
  exact find?_map_comm (setPasswordRow user_id hash) (fun u => u.email == email)
    (fun u => by simp [setPasswordRow_email]) s.users

/-! ### Frame lemmas for each operation -/

theorem getItemById_congr_items {s' s : Store} (h : s'.items = s.items) (i : Nat) :
    getItemById s' i = getItemById s i := by
  rw [getItemById, getItemById, h]

theorem register_fst_items (s : Store) (n e p : String) :
    (register s n e p).1.items = s.items := by
  cases h : firstUserByEmail s e <;> simp [register, h]

theorem register_fst_users_of_none {s : Store} {e : String}
    (h : firstUserByEmail s e = none) (n p : String) :
    (register s n e p).1.users = s.users ++
      [{ id := nextUserId s
         name := n
         email := e
         password := generate_password_hash p }] := by
  simp [register, h]

theorem register_of_some {s : Store} {e : String} {u : User}
    (h : firstUserByEmail s e = some u) (n p : String) :
    register s n e p = (s, Except.error Err.DuplicateEmail) := by
  simp [register, h]

theorem reset_password_fst_items (s : Store) (tok : ResetToken) (now : Nat)
    (p c : String) : (reset_password s tok now p c).1.items = s.items := by
  cases h1 : loads tok ("password-reset") 3600 now with
  | error e => simp [reset_password, h1]
  | ok uid2 =>
    cases h2 : getUserById s uid2 with
    | none => simp [reset_password, h1, h2]
    | some user =>
      by_cases h3 : p ≠ c
      · simp [reset_password, h1, h2, h3]
      · simp [reset_password, h1, h2, h3, setPassword]

theorem delete_item_fst_users (s : Store) (rid iid : Nat) :
    (delete_item s rid iid).1.users = s.users := by
  cases h : getItemById s iid with
  | none => simp [delete_item, h]
  | some item =>
    by_cases h2 : item.user_id ≠ rid
    · simp [delete_item, h, h2]
    · simp [delete_item, h, h2]

theorem add_item_users (s : Store) (uid : Nat) (t ty l d : String)
    (im : Option String) (now : Nat) :
    (add_item s uid t ty l d im now).users = s.users := rfl

theorem update_status_fst (s : Store) (rid iid : Nat) (ajax : Bool) :
    (update_status s rid iid ajax).1 = (update_status_core s rid iid).1 := by
  rcases h : update_status_core s rid iid with ⟨s', o⟩
  cases o <;> cases ajax <;> simp [update_status, h, callJsonify]

theorem update_status_core_fst_users (s : Store) (rid iid : Nat) :
    (update_status_core s rid iid).1.users = s.users := by
  cases h : getItemById s iid with
  | none => simp [update_status_core, h]
  | some item =>
    by_cases h2 : item.user_id ≠ rid
    · simp [update_status_core, h, h2]
    · simp [update_status_core, h, h2, commitToggle_users]

/-- `commitToggle` changes at most `is_resolved`: lookup afterwards returns the
toggled row for the same id. -/
theorem toggleRow_frame (item_id : Nat) (it : Item) :
    (toggleRow item_id it).title = it.title
    ∧ (toggleRow item_id it).type = it.type
    ∧ (toggleRow item_id it).location = it.location
    ∧ (toggleRow item_id it).description = it.description
    ∧ (toggleRow item_id it).image = it.image
    ∧ (toggleRow item_id it).date_reported = it.date_reported
    ∧ (toggleRow item_id it).user_id = it.user_id := by
  rw [toggleRow]
  split <;> exact ⟨rfl, rfl, rfl, rfl, rfl, rfl, rfl⟩

/-- Every operation preserves `date_reported` of every row that survives it. -/
theorem stepOp_date_reported {op : Op} {s : Store} {i : Nat} {it it' : Item}
    (h : getItemById s i = some it) (h' : getItemById (stepOp s op) i = some it') :
    it'.date_reported = it.date_reported := by
  cases op with
  | registerOp n e p =>
    rw [stepOp, getItemById_congr_items (register_fst_items s n e p), h] at h'
    injection h' with h'
    rw [h']
  | addItemOp uid t ty l d im now =>
    rw [stepOp, getItemById_add_item_old h] at h'
    injection h' with h'
    rw [h']
  | toggleOp rid iid ajax =>
    rw [stepOp, update_status_fst] at h'
    cases hfind : getItemById s iid with
    | none =>
      simp only [update_status_core, hfind] at h'
      rw [h] at h'
      injection h' with h'
      rw [h']
    | some item =>
      by_cases hw : item.user_id ≠ rid
      · simp only [update_status_core, hfind, if_pos hw] at h'
        rw [h] at h'
        injection h' with h'
        rw [h']
      · simp only [update_status_core, hfind, if_neg hw] at h'
        rw [getItemById_commitToggle, h] at h'
        simp only [Option.map_some'] at h'
        injection h' with h'
        rw [← h']
        exact (toggleRow_frame iid it).2.2.2.2.2.1
  | deleteOp rid iid =>
    cases hfind : getItemById s iid with
    | none =>
      rw [stepOp] at h'
      simp only [delete_item, hfind] at h'
      rw [h] at h'
      injection h' with h'
      rw [h']
    | some item =>
      by_cases hw : item.user_id ≠ rid
      · rw [stepOp] at h'
        simp only [delete_item, hfind, if_pos hw] at h'
        rw [h] at h'
        injection h' with h'
        rw [h']
      · rw [stepOp] at h'
        simp only [delete_item, hfind, if_neg hw] at h'
        by_cases hij : i = iid
        · subst hij
          rw [getItemById] at h'
          simp only at h'
          rw [find?_filter_neg (fun x => x.id == i) s.items] at h'
          cases h'
        · rw [getItemById] at h'
          simp only at h'
          rw [getItemById_filter_other hij h] at h'
          injection h' with h'
          rw [h']
  | resetOp tok now p c =>
    rw [stepOp, getItemById_congr_items (reset_password_fst_items s tok now p c), h] at h'
    injection h' with h'
    rw [h']

/-! ### Email-uniqueness machinery -/

theorem emailsUnique_of_users_eq {s' s : Store} (h : s'.users = s.users)
    (hu : emailsUnique s) : emailsUnique s' := by
  rw [emailsUnique, h]
  exact hu

theorem emailsUnique_register (s : Store) (n e p : String)
    (hu : emailsUnique s) : emailsUnique (register s n e p).1 := by
  cases h : firstUserByEmail s e with
  | some u =>
    rw [register_of_some h]
    exact hu
  | none =>
    rw [emailsUnique, register_fst_users_of_none h, List.pairwise_append]
    refine ⟨hu, by simp, ?_⟩
    intro a ha b hb
    rw [firstUserByEmail, List.find?_eq_none] at h
    have hae := h a ha
    simp only [List.mem_singleton] at hb
    rw [hb]
    simpa using hae

theorem emailsUnique_setPassword (s : Store) (uid : Nat) (hash : String)
    (hu : emailsUnique s) : emailsUnique (setPassword s uid hash) := by
  rw [emailsUnique, setPassword_users, List.pairwise_map]
  refine hu.imp ?_
  intro a b hab
  rw [setPasswordRow_email, setPasswordRow_email]
  exact hab

theorem emailsUnique_reset (s : Store) (tok : ResetToken) (now : Nat)
    (p c : String) (hu : emailsUnique s) :
    emailsUnique (reset_password s tok now p c).1 := by
  cases h1 : loads tok ("password-reset") 3600 now with
  | error e => simpa [reset_password, h1] using hu
  | ok uid2 =>
    cases h2 : getUserById s uid2 with
    | none => simpa [reset_password, h1, h2] using hu
    | some user =>
      by_cases h3 : p ≠ c
      · simpa [reset_password, h1, h2, h3] using hu
      · have := emailsUnique_setPassword s user.id (generate_password_hash p) hu
        simpa [reset_password, h1, h2, h3] using this

theorem emailsUnique_stepOp (s : Store) (op : Op) (hu : emailsUnique s) :
    emailsUnique (stepOp s op) := by
  cases op with
  | registerOp n e p => exact emailsUnique_register s n e p hu
  | addItemOp uid t ty l d im now =>
    exact emailsUnique_of_users_eq (add_item_users s uid t ty l d im now) hu
  | toggleOp rid iid ajax =>
    refine emailsUnique_of_users_eq ?_ hu
    rw [stepOp, update_status_fst]
    exact update_status_core_fst_users s rid iid
  | deleteOp rid iid => exact emailsUnique_of_users_eq (delete_item_fst_users s rid iid) hu
  | resetOp tok now p c => exact emailsUnique_reset s tok now p c hu

/-- A sequence of register requests `(name, email, password)`, applied in
order. -/
def runRegisters (s : Store) : List (String × String × String) → Store
  | [] => s
  | (n, e, p) :: rs => runRegisters (register s n e p).1 rs

theorem emailsUnique_runRegisters (rs : List (String × String × String))
    (s : Store) (hu : emailsUnique s) : emailsUnique (runRegisters s rs) := by
  induction rs generalizing s with
  | nil => exact hu
  | cons r rs ih =>
    rcases r with ⟨n, e, p⟩
    exact ih _ (emailsUnique_register s n e p hu)

theorem emailCount_register_mono (s : Store) (n e p e2 : String) :
    emailCount s e2 ≤ emailCount (register s n e p).1 e2 := by
  cases h : firstUserByEmail s e with
  | some u => rw [register_of_some h]
  | none =>
    rw [emailCount, emailCount, register_fst_users_of_none h, List.countP_append]
    exact Nat.le_add_right _ _

theorem emailCount_runRegisters_mono (rs : List (String × String × String))
    (s : Store) (e : String) :
    emailCount s e ≤ emailCount (runRegisters s rs) e := by
  induction rs generalizing s with
  | nil => exact Nat.le_refl _
  | cons r rs ih =>
    rcases r with ⟨n, e2, p⟩
    exact Nat.le_trans (emailCount_register_mono s n e2 p e) (ih _)

theorem emailCount_le_one {s : Store} (hu : emailsUnique s) (e : String) :
    emailCount s e ≤ 1 :=
  countP_le_one_of_pairwise_key User.email hu e

/-! ### Statistics lemmas -/

theorem computeStats_add_item (s : Store) (u uid : Nat) (t ty l d : String)
    (im : Option String) (now : Nat) :
    computeStats (add_item s uid t ty l d im now) u =
      { total := (computeStats s u).total + 1
        lost := (computeStats s u).lost + (if ty == ("Lost") then 1 else 0)
        found := (computeStats s u).found + (if ty == ("Found") then 1 else 0)
        resolved := (computeStats s u).resolved
        mine := (computeStats s u).mine + (if uid == u then 1 else 0) } := by
  rw [computeStats, computeStats, add_item_items]
  simp only [List.filter_append, List.length_append, Stats.mk.injEq, newItemRow]
  refine ⟨rfl, ?_, ?_, ?_, ?_⟩
  · cases hty : (ty == ("Lost" : String)) <;> simp [List.filter_cons, hty]
  · cases hty : (ty == ("Found" : String)) <;> simp [List.filter_cons, hty]
  · simp [List.filter_cons]
  · cases huid : (uid == u) <;> simp [List.filter_cons, huid]

theorem computeStats_commitToggle (s : Store) (item_id u : Nat) :
    (computeStats (commitToggle s item_id) u).total = (computeStats s u).total
    ∧ (computeStats (commitToggle s item_id) u).lost = (computeStats s u).lost
    ∧ (computeStats (commitToggle s item_id) u).found = (computeStats s u).found
    ∧ (computeStats (commitToggle s item_id) u).mine = (computeStats s u).mine := by
  refine ⟨?_, ?_, ?_, ?_⟩ <;>
    dsimp only [computeStats, commitToggle_items]
  · simp
  · rw [← List.countP_eq_length_filter, ← List.countP_eq_length_filter]
    exact countP_map_congr _ _ (fun a => by simp [(toggleRow_frame item_id a).2.1]) _
  · rw [← List.countP_eq_length_filter, ← List.countP_eq_length_filter]
    exact countP_map_congr _ _ (fun a => by simp [(toggleRow_frame item_id a).2.1]) _
  · rw [← List.countP_eq_length_filter, ← List.countP_eq_length_filter]
    exact countP_map_congr _ _
      (fun a => by simp [(toggleRow_frame item_id a).2.2.2.2.2.2]) _

theorem computeStats_resolved_pos {s : Store} {it : Item} (u : Nat)
    (hmem : it ∈ s.items) (hres : it.is_resolved = true) :
    1 ≤ (computeStats s u).resolved := by
  show 1 ≤ (s.items.filter (fun it => it.is_resolved == true)).length
  rw [← List.countP_eq_length_filter]
  exact List.countP_pos_iff.mpr ⟨it, hmem, by simp [hres]⟩

/-! ### The §8 statistics scenario: one user posts 2 Lost and 1 Found item
and resolves the Found one, starting from an arbitrary store. -/

def scenarioS1 (s0 : Store) (uid now : Nat) : Store :=
  add_item s0 uid ("Wallet") ("Lost") ("Library") ("Lost wallet") none now

def scenarioS2 (s0 : Store) (uid now : Nat) : Store :=
  add_item (scenarioS1 s0 uid now) uid ("Phone") ("Lost") ("Cafeteria")
    ("Lost phone") none now

def scenarioS3 (s0 : Store) (uid now : Nat) : Store :=
  add_item (scenarioS2 s0 uid now) uid ("Keys") ("Found") ("Gym")
    ("Found keys") none now

def scenarioStore (s0 : Store) (uid now : Nat) : Store :=
  (update_status (scenarioS3 s0 uid now) uid
    (nextItemId (scenarioS2 s0 uid now)) false).1

/-! ### Concrete example data (used by closed theorems and witnesses) -/

def exUser1 : User :=
  { id := 1
    name := "Alice"
    email := "alice@example.com"
    password := generate_password_hash ("password1") }

def exUser2 : User :=
  { id := 2
    name := "Bob"
    email := "bob@example.com"
    password := generate_password_hash ("password2") }

def exItem1 : Item :=
  { id := 1
    title := "Wallet"
    type := "Lost"
    location := "Library"
    description := "Black leather wallet"
    image := none
    date_reported := 100
    is_resolved := false
    user_id := 1 }

def exStore : Store :=
  { users := [exUser1, exUser2], items := [exItem1] }

def exOtherItem : Item :=
  { id := 5
    title := "Badge"
    type := "Misc"
    location := "Hall"
    description := "Staff badge"
    image := none
    date_reported := 2
    is_resolved := true
    user_id := 2 }

def exOtherStore : Store :=
  { users := [exUser2], items := [exOtherItem] }

/-! ### Claim theorems -/

/-- C4: `ToggleResolved` (the ownership-gated toggle of `update_status`,
`app.py` lines 218–229) invoked on an existing item by a requester whose id
differs from the item's `user_id` reports Forbidden, and the whole store —
in particular the item's `is_resolved` value — is unchanged. -/
theorem toggle_forbidden_non_owner (s : Store) (item_id requesterId : Nat)
    (item : Item) (hfind : getItemById s item_id = some item)
    (hno : item.user_id ≠ requesterId) :
    update_status_core s requesterId item_id = (s, ToggleOutcome.forbidden) :=
  update_status_core_eq_forbidden hfind hno

theorem toggle_forbidden_non_owner_witness :
    getItemById exStore 1 = some exItem1
    ∧ exItem1.user_id ≠ 2
    ∧ update_status_core exStore 2 1 = (exStore, ToggleOutcome.forbidden) :=
  ⟨by decide, by decide,
   toggle_forbidden_non_owner exStore 1 2 exItem1 (by decide) (by decide)⟩

/-- C5: one owner call of the toggle negates `is_resolved` exactly once (and
the new value differs from the old one, so a single call is not idempotent),
and a second owner call restores the original item: the toggle is an
involution. -/
theorem toggle_involution (s : Store) (item_id : Nat) (item : Item)
    (hfind : getItemById s item_id = some item) :
    (update_status_core s item.user_id item_id).2
        = ToggleOutcome.toggled (!item.is_resolved)
    ∧ getItemById (update_status_core s item.user_id item_id).1 item_id
        = some { item with is_resolved := !item.is_resolved }
    ∧ (!item.is_resolved) ≠ item.is_resolved
    ∧ getItemById
        (update_status_core (update_status_core s item.user_id item_id).1
          item.user_id item_id).1 item_id = some item := by
  have h1 : update_status_core s item.user_id item_id
      = (commitToggle s item_id, ToggleOutcome.toggled (!item.is_resolved)) :=
    update_status_core_eq_toggled hfind
  have hfind1 : getItemById (commitToggle s item_id) item_id
      = some { item with is_resolved := !item.is_resolved } :=
    getItemById_commitToggle_self hfind
  have h2 : update_status_core (commitToggle s item_id) item.user_id item_id
      = (commitToggle (commitToggle s item_id) item_id,
         ToggleOutcome.toggled (!(!item.is_resolved))) :=
    update_status_core_eq_toggled hfind1
  have hfind2 : getItemById (commitToggle (commitToggle s item_id) item_id) item_id
      = some { item with is_resolved := !(!item.is_resolved) } :=
    getItemById_commitToggle_self hfind1
  rw [h1]
  refine ⟨rfl, hfind1, by cases item.is_resolved <;> simp, ?_⟩
  rw [h2, hfind2, Bool.not_not]

theorem toggle_involution_witness :
    getItemById exStore 1 = some exItem1
    ∧ getItemById (update_status_core exStore exItem1.user_id 1).1 1
        = some { exItem1 with is_resolved := !exItem1.is_resolved }
    ∧ getItemById
        (update_status_core (update_status_core exStore exItem1.user_id 1).1
          exItem1.user_id 1).1 1 = some exItem1 :=
  ⟨by decide, (toggle_involution exStore 1 exItem1 (by decide)).2.1,
   (toggle_involution exStore 1 exItem1 (by decide)).2.2.2⟩

/-- C6: `DeleteItem` by the owner removes the item, so the subsequent lookup
returns none and `item_detail` (the GetById route) answers 404/NotFound;
`DeleteItem` by a non-owner reports the forbidden flash-and-redirect and the
store — hence the item — is unchanged. -/
theorem delete_item_owner_removes (s : Store) (item_id rid : Nat) (item : Item)
    (hfind : getItemById s item_id = some item)
    (hno : rid ≠ item.user_id) :
    getItemById (delete_item s item.user_id item_id).1 item_id = none
    ∧ item_detail (delete_item s item.user_id item_id).1 item_id = Response.abort404
    ∧ delete_item s rid item_id
        = (s, Response.redirectWithFlash
            ("You are not allowed to delete this item.") ("danger") ("dashboard"))
    ∧ getItemById s item_id = some item := by
  have h1 := getItemById_delete_self hfind
  refine ⟨h1, by rw [item_detail, h1], ?_, hfind⟩
  simp only [delete_item, hfind]
  rw [if_pos (Ne.symm hno)]

theorem delete_item_owner_removes_witness :
    getItemById exStore 1 = some exItem1
    ∧ (2 : Nat) ≠ exItem1.user_id
    ∧ getItemById (delete_item exStore exItem1.user_id 1).1 1 = none
    ∧ item_detail (delete_item exStore exItem1.user_id 1).1 1 = Response.abort404 :=
  ⟨by decide, by decide,
   (delete_item_owner_removes exStore 1 2 exItem1 (by decide) (by decide)).1,
   (delete_item_owner_removes exStore 1 2 exItem1 (by decide) (by decide)).2.1⟩

/-- C9: with a valid unexpired reset token whose user exists, differing
password fields make `reset_password` fail with PasswordMismatch and return
the store exactly as it was (no user record — the token's user's hash
included — is modified). -/
theorem reset_password_mismatch (s : Store) (tok : ResetToken) (now : Nat)
    (password confirm_password : String) (user : User)
    (hsalt : tok.salt = ("password-reset"))
    (hage : now - tok.issued_at ≤ 3600)
    (huser : getUserById s tok.user_id = some user)
    (hne : password ≠ confirm_password) :
    reset_password s tok now password confirm_password
      = (s, Except.error Err.PasswordMismatch) := by
  have hloads : loads tok ("password-reset") 3600 now = Except.ok tok.user_id := by
    rw [loads, if_neg (by simp [hsalt]), if_neg (by omega)]
  simp only [reset_password, hloads, huser]
  rw [if_pos hne]

theorem reset_password_mismatch_witness :
    (dumps 1 ("password-reset") 0).salt = ("password-reset")
    ∧ 100 - (dumps 1 ("password-reset") 0).issued_at ≤ 3600
    ∧ getUserById exStore (dumps 1 ("password-reset") 0).user_id = some exUser1
    ∧ ("newpass1" : String) ≠ ("newpass2")
    ∧ reset_password exStore (dumps 1 ("password-reset") 0) 100
        ("newpass1") ("newpass2") = (exStore, Except.error Err.PasswordMismatch) :=
  ⟨rfl, by decide, by decide, by decide,
   reset_password_mismatch exStore (dumps 1 ("password-reset") 0) 100
     ("newpass1") ("newpass2") exUser1 rfl (by decide) (by decide) (by decide)⟩

/-- C10: `add_item` with no image part or an empty filename still creates the
item (one more row, found under the fresh id) with `image = none`; with a
non-empty filename the created row records `image = some (secure_filename
filename)`. -/
theorem add_item_image_handling (s : Store) (uid : Nat) (t ty l d fn : String)
    (now : Nat) (hfn : fn ≠ ("")) :
    getItemById (add_item s uid t ty l d none now) (nextItemId s)
        = some (newItemRow s uid t ty l d none now)
    ∧ (newItemRow s uid t ty l d none now).image = none
    ∧ (add_item s uid t ty l d none now).items.length = s.items.length + 1
    ∧ getItemById (add_item s uid t ty l d (some ("")) now) (nextItemId s)
        = some (newItemRow s uid t ty l d (some ("")) now)
    ∧ (newItemRow s uid t ty l d (some ("")) now).image = none
    ∧ getItemById (add_item s uid t ty l d (some fn) now) (nextItemId s)
        = some (newItemRow s uid t ty l d (some fn) now)
    ∧ (newItemRow s uid t ty l d (some fn) now).image = some (secure_filename fn) := by
  refine ⟨getItemById_add_item_new s uid t ty l d none now, rfl,
    by simp [add_item_items],
    getItemById_add_item_new s uid t ty l d (some ("")) now,
    by simp [newItemRow],
    getItemById_add_item_new s uid t ty l d (some fn) now,
    by simp [newItemRow, hfn]⟩

theorem add_item_image_handling_witness :
    ("my photo.png" : String) ≠ ("")
    ∧ (newItemRow exStore 1 ("Coat") ("Lost") ("Lobby") ("Blue coat") none 5).image = none
    ∧ (newItemRow exStore 1 ("Coat") ("Lost") ("Lobby") ("Blue coat")
        (some ("my photo.png")) 5).image = some (secure_filename ("my photo.png")) :=
  ⟨by decide,
   (add_item_image_handling exStore 1 ("Coat") ("Lost") ("Lobby") ("Blue coat")
     ("my photo.png") 5 (by decide)).2.1,
   (add_item_image_handling exStore 1 ("Coat") ("Lost") ("Lobby") ("Blue coat")
     ("my photo.png") 5 (by decide)).2.2.2.2.2.2⟩

/-- C1: the specification requires the AJAX status-toggle (header
`X-Requested-With: XMLHttpRequest`) to answer JSON with the new `is_resolved`
for the owner and 403 JSON for a non-owner, completing without error.  The
code instead raises `NameError` in both AJAX cases, because `update_status`
calls `jsonify` (`app.py` lines 223 and 233) but the flask import on line 1
never binds that name.  The owner's toggle is nevertheless committed before
the failure, and the non-AJAX path still works. -/
theorem update_status_ajax_raises_nameError :
    (update_status exStore 1 1 true).2 = Except.error (PyExn.nameError ("jsonify"))
    ∧ (update_status exStore 2 1 true).2 = Except.error (PyExn.nameError ("jsonify"))
    ∧ (update_status exStore 1 1 true).1 = commitToggle exStore 1
    ∧ (update_status exStore 2 1 true).1 = exStore
    ∧ (update_status exStore 1 1 false).2
        = Except.ok (Response.redirectWithFlash
            ("Item status updated ✅") ("success") ("dashboard")) :=
  ⟨rfl, rfl, rfl, rfl, rfl⟩

/-- C2 counterexample: a reset consumed in-window with new = confirm = the
user's OLD password succeeds, and afterwards the old password STILL
authenticates — contradicting the claim that after an in-window reset
"authenticating with the old password fails" for every such reset. -/
theorem reset_token_same_password_counterexample :
    (reset_password exStore (dumps 1 ("password-reset") 0) 3599
        ("password1") ("password1")).2 = Except.ok ()
    ∧ authenticate
        (reset_password exStore (dumps 1 ("password-reset") 0) 3599
          ("password1") ("password1")).1
        ("alice@example.com") ("password1") = Except.ok 1 :=
  ⟨rfl, rfl⟩

/-- C2 (amended): for every equal new/confirm pair, a token issued at T and
consumed at T+3601 fails with TokenExpired and the store (hence the stored
hash) is unchanged, while consumed at T+3599 it succeeds, after which the new
password authenticates; and for any old password (one hashing to the stored
hash) that differs from the new one, the old password no longer
authenticates.  The differs-proviso scopes only that last conjunct. -/
theorem reset_token_lifecycle (s : Store) (email newPwd : String)
    (user : User) (T : Nat)
    (hfind : firstUserByEmail s email = some user)
    (hbyid : getUserById s user.id = some user) :
    reset_password s (dumps user.id ("password-reset") T) (T + 3601) newPwd newPwd
        = (s, Except.error Err.TokenExpired)
    ∧ (reset_password s (dumps user.id ("password-reset") T) (T + 3599)
        newPwd newPwd).2 = Except.ok ()
    ∧ authenticate
        (reset_password s (dumps user.id ("password-reset") T) (T + 3599)
          newPwd newPwd).1 email newPwd = Except.ok user.id
    ∧ (∀ oldPwd, user.password = generate_password_hash oldPwd → oldPwd ≠ newPwd →
        authenticate
          (reset_password s (dumps user.id ("password-reset") T) (T + 3599)
            newPwd newPwd).1 email oldPwd = Except.error Err.InvalidCredentials) := by
  have hl1 : loads (dumps user.id ("password-reset") T) ("password-reset") 3600 (T + 3601)
      = Except.error Err.TokenExpired := by
    rw [loads, if_neg (by simp [dumps]), if_pos (by simp [dumps])]
  have hl2 : loads (dumps user.id ("password-reset") T) ("password-reset") 3600 (T + 3599)
      = Except.ok user.id := by
    rw [loads, if_neg (by simp [dumps]), if_neg (by simp [dumps])]
    rfl
  have hrun : reset_password s (dumps user.id ("password-reset") T) (T + 3599)
      newPwd newPwd
      = (setPassword s user.id (generate_password_hash newPwd), Except.ok ()) := by
    simp only [reset_password, hl2, hbyid]
    rw [if_neg (by simp)]
  have hfound2 : firstUserByEmail (setPassword s user.id (generate_password_hash newPwd))
      email = some { user with password := generate_password_hash newPwd } := by
    rw [firstUserByEmail_setPassword, hfind, Option.map_some']
    congr 1
    rw [setPasswordRow]
    simp
  refine ⟨?_, ?_, ?_, ?_⟩
  · simp only [reset_password, hl1]
  · rw [hrun]
  · rw [hrun]
    simp only [authenticate, hfound2]
    rw [if_pos (by simp [check_password_hash_self newPwd])]
  · intro oldPwd hold hne
    rw [hrun]
    simp only [authenticate, hfound2]
    rw [if_neg (by simp [check_password_hash_ne hne])]

theorem reset_token_lifecycle_witness :
    firstUserByEmail exStore ("alice@example.com") = some exUser1
    ∧ getUserById exStore exUser1.id = some exUser1
    ∧ exUser1.password = generate_password_hash ("password1")
    ∧ ("password1" : String) ≠ ("password2")
    ∧ (reset_password exStore (dumps exUser1.id ("password-reset") 0) (0 + 3599)
        ("password2") ("password2")).2 = Except.ok ()
    ∧ authenticate
        (reset_password exStore (dumps exUser1.id ("password-reset") 0) (0 + 3599)
          ("password2") ("password2")).1
        ("alice@example.com") ("password1") = Except.error Err.InvalidCredentials :=
  ⟨by decide, by decide, rfl, by decide,
   (reset_token_lifecycle exStore ("alice@example.com") ("password2")
     exUser1 0 (by decide) (by decide)).2.1,
   (reset_token_lifecycle exStore ("alice@example.com") ("password2")
     exUser1 0 (by decide) (by decide)).2.2.2 ("password1") rfl (by decide)⟩

/-- C3: registering an email that already exists fails with DuplicateEmail
and changes nothing; starting from a store with unique emails, any sequence
of register requests preserves uniqueness, keeps every email at ≤ 1 user,
keeps every already-registered email at exactly 1 user — and every operation
of the system preserves the email-uniqueness invariant. -/
theorem register_email_uniqueness (s : Store)
    (rs : List (String × String × String)) (name email password : String)
    (u : User) (hu : emailsUnique s)
    (hdup : firstUserByEmail s email = some u) :
    register s name email password = (s, Except.error Err.DuplicateEmail)
    ∧ emailsUnique (runRegisters s rs)
    ∧ (∀ e, emailCount (runRegisters s rs) e ≤ 1)
    ∧ (∀ e, 1 ≤ emailCount s e → emailCount (runRegisters s rs) e = 1)
    ∧ (∀ op, emailsUnique (stepOp s op)) := by
  refine ⟨register_of_some hdup name password,
    emailsUnique_runRegisters rs s hu,
    fun e => emailCount_le_one (emailsUnique_runRegisters rs s hu) e, ?_,
    fun op => emailsUnique_stepOp s op hu⟩
  intro e he
  have h1 := emailCount_runRegisters_mono rs s e
  have h2 := emailCount_le_one (emailsUnique_runRegisters rs s hu) e
  omega

theorem register_email_uniqueness_witness :
    emailsUnique exStore
    ∧ firstUserByEmail exStore ("alice@example.com") = some exUser1
    ∧ register exStore ("Eve") ("alice@example.com") ("pw9")
        = (exStore, Except.error Err.DuplicateEmail)
    ∧ emailCount
        (runRegisters exStore
          [(("Carol"), ("carol@example.com"), ("pw3")),
           (("Dave"), ("alice@example.com"), ("pw4"))])
        ("alice@example.com") = 1 :=
  ⟨by unfold emailsUnique; decide,
   by decide,
   (register_email_uniqueness exStore
      [(("Carol"), ("carol@example.com"), ("pw3")),
       (("Dave"), ("alice@example.com"), ("pw4"))]
      ("Eve") ("alice@example.com") ("pw9") exUser1
      (by unfold emailsUnique; decide) (by decide)).1,
   (register_email_uniqueness exStore
      [(("Carol"), ("carol@example.com"), ("pw3")),
       (("Dave"), ("alice@example.com"), ("pw4"))]
      ("Eve") ("alice@example.com") ("pw9") exUser1
      (by unfold emailsUnique; decide) (by decide)).2.2.2.1
     ("alice@example.com") (by decide)⟩

/-- C7: `date_reported` is written at creation (`add_item` stamps the new row
with the current time) and is preserved by every operation of the system for
every surviving row; the owner's toggle changes only the `is_resolved` field
of the targeted item, leaving its other fields, every other item, and the
user table unchanged. -/
theorem date_reported_immutable (op : Op) (s : Store) (i : Nat) (it it' : Item)
    (h : getItemById s i = some it)
    (h' : getItemById (stepOp s op) i = some it') :
    it'.date_reported = it.date_reported
    ∧ (∀ (s2 : Store) (uid now : Nat) (t ty l d : String) (im : Option String),
        (getItemById (add_item s2 uid t ty l d im now) (nextItemId s2)).map
          (fun x => x.date_reported) = some now)
    ∧ (∀ (s2 : Store) (j : Nat) (item : Item), getItemById s2 j = some item →
        getItemById (update_status_core s2 item.user_id j).1 j
            = some { item with is_resolved := !item.is_resolved }
        ∧ (∀ k, k ≠ j →
            getItemById (update_status_core s2 item.user_id j).1 k = getItemById s2 k)
        ∧ (update_status_core s2 item.user_id j).1.users = s2.users) := by
  refine ⟨stepOp_date_reported h h', ?_, ?_⟩
  · intro s2 uid now t ty l d im
    rw [getItemById_add_item_new]
    rfl
  · intro s2 j item hfind
    have hc : update_status_core s2 item.user_id j
        = (commitToggle s2 j, ToggleOutcome.toggled (!item.is_resolved)) :=
      update_status_core_eq_toggled hfind
    rw [hc]
    exact ⟨getItemById_commitToggle_self hfind,
      fun k hk => getItemById_commitToggle_other hk, commitToggle_users s2 j⟩

theorem date_reported_immutable_witness :
    getItemById exStore 1 = some exItem1
    ∧ getItemById (stepOp exStore (Op.toggleOp 1 1 false)) 1
        = some { exItem1 with is_resolved := true }
    ∧ ({ exItem1 with is_resolved := true } : Item).date_reported
        = exItem1.date_reported :=
  ⟨by decide, by decide,
   (date_reported_immutable (Op.toggleOp 1 1 false) exStore 1 exItem1
     { exItem1 with is_resolved := true } (by decide) (by decide)).1⟩

/-- C8: the dashboard statistics count the whole item table — total,
type = "Lost", type = "Found", resolved, and the requesting user's own items;
in the §8 scenario (the user posts 2 Lost and 1 Found item and resolves one,
starting from any store in which the user owns nothing and no item counts as
Lost or Found) that user sees lost = 2, found = 1, resolved ≥ 1, total ≥ 3,
mine = 3. -/
theorem computeStats_spec (s0 : Store) (uid now : Nat)
    (hlost : (computeStats s0 uid).lost = 0)
    (hfound : (computeStats s0 uid).found = 0)
    (hmine : (computeStats s0 uid).mine = 0) :
    (∀ (s : Store) (u : Nat),
        (computeStats s u).total = s.items.length
        ∧ (computeStats s u).lost = s.items.countP (fun it => it.type == ("Lost"))
        ∧ (computeStats s u).found = s.items.countP (fun it => it.type == ("Found"))
        ∧ (computeStats s u).resolved
            = s.items.countP (fun it => it.is_resolved == true)
        ∧ (computeStats s u).mine = s.items.countP (fun it => it.user_id == u))
    ∧ (computeStats (scenarioStore s0 uid now) uid).lost = 2
    ∧ (computeStats (scenarioStore s0 uid now) uid).found = 1
    ∧ 1 ≤ (computeStats (scenarioStore s0 uid now) uid).resolved
    ∧ 3 ≤ (computeStats (scenarioStore s0 uid now) uid).total
    ∧ (computeStats (scenarioStore s0 uid now) uid).mine = 3 := by
  have hfind3 : getItemById (scenarioS3 s0 uid now) (nextItemId (scenarioS2 s0 uid now))
      = some (newItemRow (scenarioS2 s0 uid now) uid ("Keys") ("Found") ("Gym")
          ("Found keys") none now) := by
    rw [scenarioS3]
    exact getItemById_add_item_new _ _ _ _ _ _ _ _
  have hs4 : scenarioStore s0 uid now
      = commitToggle (scenarioS3 s0 uid now) (nextItemId (scenarioS2 s0 uid now)) := by
    rw [scenarioStore, update_status_fst]
    have hc : update_status_core (scenarioS3 s0 uid now) uid
        (nextItemId (scenarioS2 s0 uid now))
        = (commitToggle (scenarioS3 s0 uid now) (nextItemId (scenarioS2 s0 uid now)),
           ToggleOutcome.toggled true) :=
      update_status_core_eq_toggled hfind3
    rw [hc]
  have hstats3 : computeStats (scenarioS3 s0 uid now) uid
      = { total := (computeStats s0 uid).total + 3
          lost := 2
          found := 1
          resolved := (computeStats s0 uid).resolved
          mine := 3 } := by
    rw [scenarioS3, computeStats_add_item, scenarioS2, computeStats_add_item,
      scenarioS1, computeStats_add_item, hlost, hfound, hmine]
    have hFL : ((("Found") : String) == ("Lost")) = false := by decide
    have hLF : ((("Lost") : String) == ("Found")) = false := by decide
    simp [hFL, hLF]
  have hframe := computeStats_commitToggle (scenarioS3 s0 uid now)
    (nextItemId (scenarioS2 s0 uid now)) uid
  refine ⟨?_, ?_, ?_, ?_, ?_, ?_⟩
  · intro s u
    dsimp only [computeStats]
    exact ⟨rfl, (List.countP_eq_length_filter _ _).symm,
      (List.countP_eq_length_filter _ _).symm,
      (List.countP_eq_length_filter _ _).symm,
      (List.countP_eq_length_filter _ _).symm⟩
  · rw [hs4, hframe.2.1, hstats3]
  · rw [hs4, hframe.2.2.1, hstats3]
  · rw [hs4]
    have hmem : toggleRow (nextItemId (scenarioS2 s0 uid now))
        (newItemRow (scenarioS2 s0 uid now) uid ("Keys") ("Found") ("Gym")
          ("Found keys") none now)
        ∈ (commitToggle (scenarioS3 s0 uid now)
            (nextItemId (scenarioS2 s0 uid now))).items := by
      rw [commitToggle_items]
      refine List.mem_map_of_mem _ ?_
      rw [scenarioS3, add_item_items]
      exact List.mem_append_right _ (by simp)
    exact computeStats_resolved_pos uid hmem (by simp [toggleRow, newItemRow])
  · rw [hs4, hframe.1, hstats3]
    exact Nat.le_add_left 3 _
  · rw [hs4, hframe.2.2.2, hstats3]

theorem computeStats_spec_witness :
    (computeStats exOtherStore 1).lost = 0
    ∧ (computeStats exOtherStore 1).found = 0
    ∧ (computeStats exOtherStore 1).mine = 0
    ∧ (computeStats (scenarioStore exOtherStore 1 200) 1).lost = 2
    ∧ (computeStats (scenarioStore exOtherStore 1 200) 1).mine = 3 :=
  ⟨by decide, by decide, by decide,
   (computeStats_spec exOtherStore 1 200 (by decide) (by decide) (by decide)).2.1,
   (computeStats_spec exOtherStore 1 200 (by decide) (by decide) (by decide)).2.2.2.2.2⟩

end LostFound
